import Mathlib

/-!
Verification development for the iCODE community-server bot core
(file src/src/bot.py): the bump-reminder scheduler and the
animated-emoji message relay. Python strings are embedded as
List Char; the stateful event handlers are embedded as pure
functions that return the new state together with a trace of the
side effects they perform. Transport operations that can raise an
exception are given an explicit success flag in an environment
record; a raised exception shows up as a `some` error result.
-/

namespace Reflect

/-- Python `s.startswith(pat)` over char lists: `pat` matches at the head. -/
def leadsWith : List Char → List Char → Bool
  | [], _ => true
  | _ :: _, [] => false
  | p :: ps, c :: cs => p == c && leadsWith ps cs

/-- Python `pat in s` over char lists: `pat` occurs as a contiguous substring. -/
def containsSub (pat : List Char) : List Char → Bool
  | [] => leadsWith pat []
  | c :: rest => leadsWith pat (c :: rest) || containsSub pat rest

/-- Helper for `replaceList`. The Nat argument counts characters still to
skip because they belong to an already-replaced occurrence of the pattern. -/
def replAux (pat rep : List Char) : Nat → List Char → List Char
  | _, [] => []
  | Nat.succ k, _ :: rest => replAux pat rep k rest
  | 0, c :: rest =>
    if leadsWith pat (c :: rest) then rep ++ replAux pat rep (pat.length - 1) rest
    else c :: replAux pat rep 0 rest

/-- Python `s.replace(pat, rep)`: replace every non-overlapping occurrence of
`pat` in `s` by `rep`, scanning left to right. Used only with nonempty
patterns (candidate tokens have length greater than 2). -/
def replaceList (pat rep s : List Char) : List Char :=
  replAux pat rep 0 s

/-- Helper for `pySplit`; the accumulator holds the current word reversed. -/
def pySplitAux : List Char → List Char → List (List Char)
  | [], acc => if acc.isEmpty then [] else [acc.reverse]
  | c :: rest, acc =>
    if c.isWhitespace then
      if acc.isEmpty then pySplitAux rest []
      else acc.reverse :: pySplitAux rest []
    else pySplitAux rest (c :: acc)

/-- Python `s.split()` with no arguments: split on runs of whitespace,
discarding empty words. Every produced word is nonempty. -/
def pySplit (s : List Char) : List (List Char) :=
  pySplitAux s []

/-- Python `s.count(ch)` for a single-character substring. -/
def countChar (ch : Char) (s : List Char) : Nat :=
  (s.filter (· == ch)).length

/-!
Reminder scheduler, from src/src/bot.py.
-/

/-- Modelled from the spec: the absent-record branch of the Timestamp Store
read (BumpTimer.get_bump_time lives in src/utils/bump_timer.py, which is not
among the sources); the spec treats an absent lastTriggerTime as due now,
so the delay is 0. The `some` branch is the startup computation of
src/src/bot.py on_ready (lines 84-88): delta is the elapsed seconds since
the stored bump time, and the delay is 0 if delta is at least 7200,
otherwise 7200 minus delta. -/
def computeInitialDelay : Option Int → Int → Int
  | none, _ => 0
  | some t, now => if now - t ≥ 7200 then 0 else 7200 - (now - t)

/-- Primitive side effects of the scheduler handlers, in program order. -/
inductive SAct where
  | setRunning (b : Bool)
  | sleepFor (d : Nat)
  | emitReminder
  | armTimer (d : Nat)
  | storeWrite (t : Int)
deriving DecidableEq, BEq

/-- The handler on_bump_done of src/src/bot.py (lines 93-124): set the
running flag, sleep for the given delay, clear the running flag, then send
the reminder embed. The handler contains no try/except: when the emission
transport fails (emitOk = false) the exception escapes the handler, which
is the `some ()` result; a normal return is `none`. -/
def onBumpDone (delay : Nat) (emitOk : Bool) : List SAct × Option Unit :=
  ([SAct.setRunning true, SAct.sleepFor delay, SAct.setRunning false,
    SAct.emitReminder],
   if emitOk then none else some ())

/-- The running flag after executing a trace of scheduler actions. -/
def runningAfter (init : Bool) (acts : List SAct) : Bool :=
  acts.foldl (fun r a => match a with | SAct.setRunning b => b | _ => r) init

/-- The durations of the sleep actions occurring in a trace. -/
def sleepsOf (acts : List SAct) : List Nat :=
  acts.filterMap (fun a => match a with | SAct.sleepFor d => some d | _ => none)

/-- The delays of the timer-arming actions occurring in a trace. -/
def armsOf (acts : List SAct) : List Nat :=
  acts.filterMap (fun a => match a with | SAct.armTimer d => some d | _ => none)

/-!
Token resolver and the animated-emoji rewrite loop, from
src/src/bot.py _animated_emojis (lines 253-275). The collaborator
EmojiGroup.get_emoji is abstracted as a resolver function; a miss
(the AttributeError branch of the source) is `none`, a hit returns
the textual form of the emoji reference.
-/

/-- The candidate test of the source loop: the word starts and ends with the
colon delimiter and its length exceeds 2. Words come from `pySplit` and are
therefore nonempty, so the head and last defaults are never consulted. -/
def isCandidate (w : List Char) : Bool :=
  w.headD ' ' == ':' && w.getLastD ' ' == ':' && decide (w.length > 2)

/-- The mutable state of the rewrite loop: the current message content, the
list temp of words already substituted, the emoji variable (None before the
first successful resolution, afterwards the last resolved reference), and
the instrumentation list of names passed to the resolver. -/
structure AewnState where
  content : List Char
  temp : List (List Char)
  emoji : Option (List Char)
  lookups : List (List Char)
deriving DecidableEq

/-- One iteration of the word loop of _animated_emojis: a word wrapped in
colons, longer than 2, and not already in temp is stripped of its delimiters
and resolved; on a hit every occurrence of the word in the current content
is replaced by the resolved text and the word is appended to temp; on a miss
(AttributeError) the state is unchanged apart from the recorded lookup. -/
def aewnStep (resolve : List Char → Option (List Char)) (st : AewnState)
    (word : List Char) : AewnState :=
  if isCandidate word && !st.temp.contains word then
    match resolve ((word.drop 1).dropLast) with
    | some e =>
      { content := replaceList word e st.content,
        temp := st.temp ++ [word],
        emoji := some e,
        lookups := st.lookups ++ [(word.drop 1).dropLast] }
    | none => { st with lookups := st.lookups ++ [(word.drop 1).dropLast] }
  else st

/-- The whole rewrite loop of _animated_emojis: fold the word step over the
whitespace split of the original content (the source iterates over the split
of the content as it was when the loop started, while replacements mutate
the content itself). -/
def animatedEmojis (resolve : List Char → Option (List Char))
    (content : List Char) : AewnState :=
  (pySplit content).foldl (aewnStep resolve) ⟨content, [], none, []⟩

/-- A concrete resolver for witnesses: only the name smile resolves, to R. -/
def demoResolve (name : List Char) : Option (List Char) :=
  if name = "smile".toList then some ("R".toList) else none

/-!
Identity proxy registry and relay transport, from src/src/bot.py
_animated_emojis (lines 277-308).
-/

/-- A webhook as the relay sees it: only the id of the owning user matters. -/
structure SrcWebhook where
  userId : Nat
deriving DecidableEq, BEq

/-- Outcome of the webhook selection: reuse an existing webhook or create a
fresh one with the given name and avatar. -/
inductive ProxyResult where
  | reuse (w : SrcWebhook)
  | create (name : List Char) (avatar : Nat)
deriving DecidableEq, BEq

/-- The for-break-else loop of the source: the first listed webhook owned by
the bot is reused; if none is, a webhook named iCODE-BOT is created with the
avatar of the author of the triggering message. -/
def getProxy (botId : Nat) (authorAvatar : Nat)
    (webhooks : List SrcWebhook) : ProxyResult :=
  match webhooks.find? (fun w => w.userId == botId) with
  | some w => ProxyResult.reuse w
  | none => ProxyResult.create ("iCODE-BOT".toList) authorAvatar

/-- The awaited transport steps of the relay, in program order. -/
inductive RStep where
  | listWebhooks
  | readAvatar
  | createWebhook
  | sendContent
  | deleteOriginal
deriving DecidableEq, BEq

/-- The transport failure raised at each step. -/
inductive RErr where
  | listFailed
  | createFailed
  | sendFailed
  | deleteFailed
deriving DecidableEq, BEq

/-- Success or failure of each transport operation the relay performs.
`webhooksResult` is `none` when listing the channel webhooks raises,
otherwise the listed webhooks. -/
structure TransportEnv where
  webhooksResult : Option (List SrcWebhook)
  createOk : Bool
  sendOk : Bool
  deleteOk : Bool
deriving DecidableEq

/-- The transport tail of _animated_emojis, entered when the emoji variable
is set: list the channel webhooks, reuse or create the proxy webhook, send
the rewritten content through it, delete the original message. The source
wraps none of these awaits in try/except, so an exception raised at a step
aborts the relay there and escapes the handler: the result records the
steps attempted, and `some e` when an exception escaped. -/
def relayTransport (botId avatar : Nat) (env : TransportEnv) :
    List RStep × Option RErr :=
  match env.webhooksResult with
  | none => ([RStep.listWebhooks], some RErr.listFailed)
  | some whs =>
    match getProxy botId avatar whs with
    | ProxyResult.reuse _ =>
      if env.sendOk then
        if env.deleteOk then
          ([RStep.listWebhooks, RStep.sendContent, RStep.deleteOriginal],
           none)
        else
          ([RStep.listWebhooks, RStep.sendContent, RStep.deleteOriginal],
           some RErr.deleteFailed)
      else ([RStep.listWebhooks, RStep.sendContent], some RErr.sendFailed)
    | ProxyResult.create _ _ =>
      if env.createOk then
        if env.sendOk then
          if env.deleteOk then
            ([RStep.listWebhooks, RStep.readAvatar, RStep.createWebhook,
              RStep.sendContent, RStep.deleteOriginal], none)
          else
            ([RStep.listWebhooks, RStep.readAvatar, RStep.createWebhook,
              RStep.sendContent, RStep.deleteOriginal],
             some RErr.deleteFailed)
        else
          ([RStep.listWebhooks, RStep.readAvatar, RStep.createWebhook,
            RStep.sendContent], some RErr.sendFailed)
      else
        ([RStep.listWebhooks, RStep.readAvatar, RStep.createWebhook],
         some RErr.createFailed)

/-- The transport steps a message causes through _animated_emojis: none at
all when no token resolved (the emoji variable is still None), otherwise
the relay transport sequence. -/
def aewnEffects (resolve : List Char → Option (List Char))
    (content : List Char) (botId avatar : Nat) (env : TransportEnv) :
    List RStep :=
  if (animatedEmojis resolve content).emoji.isSome then
    (relayTransport botId avatar env).1
  else []

/-!
Timestamp store and the message handler on_message, from
src/src/bot.py (lines 219-243).
-/

/-- The single persisted bump record. -/
structure BumpStore where
  lastBump : Option Int
deriving DecidableEq

/-- Modelled from the spec: BumpTimer.update_bump_time of the missing
src/utils/bump_timer.py; the store keeps exactly one timestamp, and a
write overwrites it. -/
def updateBumpTime (_s : BumpStore) (t : Int) : BumpStore :=
  ⟨some t⟩

/-- Modelled from the spec: BumpTimer.get_bump_time of the missing
src/utils/bump_timer.py; a read returns the stored timestamp, or absence. -/
def getBumpTime (s : BumpStore) : Option Int :=
  s.lastBump

/-- An inbound message as on_message inspects it: the webhook origin marker,
the author id, the descriptions of the attached embeds, and the content. -/
structure InMsg where
  webhookId : Option Nat
  authorId : Nat
  embeds : List (List Char)
  content : List Char
deriving DecidableEq

/-- The outcome of on_message: the bump store afterwards, the delay of the
dispatched bump_done event if any, the scheduler actions performed in
order, whether the rewrite loop ran, the content after rewriting, and
whether the relay transport fired (the emoji variable was set, so the
webhook send and delete path runs). -/
structure MsgResult where
  store : BumpStore
  armed : Option Nat
  acts : List SAct
  aewnRan : Bool
  newContent : List Char
  fired : Bool
deriving DecidableEq

/-- The handler on_message of src/src/bot.py (lines 219-243). In
maintenance mode messages outside the maintenance channel are dropped. A
message with a webhook id is never rewritten or relayed: if its author is
Disboard and the first embed description contains the words Bump done, the
bump time is stored and a bump_done event with delay 7200 is dispatched,
and the handler returns either way (a Disboard message with no embeds
raises IndexError in the source, with the same absence of store and relay
effects). Otherwise the rewrite loop runs when the content has more than
one colon. -/
def onMessage (disboardId : Nat) (maintenance isMaint : Bool) (now : Int)
    (resolve : List Char → Option (List Char)) (store : BumpStore)
    (msg : InMsg) : MsgResult :=
  if maintenance && !isMaint then
    ⟨store, none, [], false, msg.content, false⟩
  else
    match msg.webhookId with
    | some _ =>
      if msg.authorId == disboardId then
        match msg.embeds with
        | [] => ⟨store, none, [], false, msg.content, false⟩
        | d :: _ =>
          if containsSub ("Bump done".toList) d then
            ⟨updateBumpTime store now, some 7200,
             [SAct.storeWrite now, SAct.armTimer 7200],
             false, msg.content, false⟩
          else ⟨store, none, [], false, msg.content, false⟩
      else ⟨store, none, [], false, msg.content, false⟩
    | none =>
      if countChar ':' msg.content > 1 then
        let st := animatedEmojis resolve msg.content
        ⟨store, none, [], true, st.content, st.emoji.isSome⟩
      else ⟨store, none, [], false, msg.content, false⟩

/-- The relay transport steps a handled message causes: none unless the
rewrite loop resolved at least one token. -/
def messageEffects (res : MsgResult) (botId avatar : Nat)
    (env : TransportEnv) : List RStep :=
  if res.fired then (relayTransport botId avatar env).1 else []

/-!
Theorems.
-/

/-- Claim C1 (amended): the startup delay equals
max(0, 7200 - (now - lastTriggerTime)) for every now and every stored
trigger time; it lies in [0, 7200] whenever the stored time is not in the
future of now; an absent trigger time gives delay 0. -/
theorem c1_initial_delay_formula (now t : Int) :
    computeInitialDelay (some t) now = max 0 (7200 - (now - t)) ∧
    (t ≤ now → 0 ≤ computeInitialDelay (some t) now ∧
      computeInitialDelay (some t) now ≤ 7200) ∧
    computeInitialDelay none now = 0 := by
  refine ⟨?_, ?_, rfl⟩
  · simp only [computeInitialDelay]
    split
    · exact (max_eq_left (by omega)).symm
    · exact (max_eq_right (by omega)).symm
  · intro h
    refine ⟨?_, ?_⟩ <;> simp only [computeInitialDelay] <;> split <;> omega

/-- Claim C1, counterexample to the range part as stated: with the stored
trigger time one second in the future of now, the computed delay is 7201,
which is outside [0, 7200]. -/
theorem c1_range_cex :
    computeInitialDelay (some 1) 0 = 7201 ∧
    7200 < computeInitialDelay (some 1) 0 := by
  decide

/-- Claim C1, witness: the amended theorem applied at now = 1000 over a
stored trigger time 0. -/
theorem c1_witness :
    0 ≤ computeInitialDelay (some 0) 1000 ∧
    computeInitialDelay (some 0) 1000 ≤ 7200 :=
  (c1_initial_delay_formula 1000 0).2.1 (by decide)

/-- Claim C2: in the word loop of the rewrite pass, a word is left alone
unless it starts and ends with the colon delimiter, its length exceeds 2,
and it was not already substituted (recorded in temp); a candidate that
resolves has every occurrence of the exact word replaced in the current
message content by the resolved text and is recorded in temp; a candidate
that misses changes nothing apart from the recorded lookup, and scanning
continues; the word consisting of two colons, of length exactly 2, is
never a candidate. -/
theorem c2_candidate_step (resolve : List Char → Option (List Char))
    (st : AewnState) (w : List Char) :
    (isCandidate w = false → aewnStep resolve st w = st) ∧
    (st.temp.contains w = true → aewnStep resolve st w = st) ∧
    (isCandidate w = true → st.temp.contains w = false →
      ((resolve ((w.drop 1).dropLast) = none →
        aewnStep resolve st w =
          { st with lookups := st.lookups ++ [(w.drop 1).dropLast] }) ∧
       (∀ e, resolve ((w.drop 1).dropLast) = some e →
        aewnStep resolve st w =
          { content := replaceList w e st.content,
            temp := st.temp ++ [w],
            emoji := some e,
            lookups := st.lookups ++ [(w.drop 1).dropLast] }))) ∧
    isCandidate ("::".toList) = false := by
  refine ⟨?_, ?_, ?_, by decide⟩
  · intro h
    simp [aewnStep, h]
  · intro h
    have hm : w ∈ st.temp := by simpa using h
    simp [aewnStep, hm]
  · intro h1 h2
    have hm : w ∉ st.temp := by simpa using h2
    refine ⟨?_, ?_⟩
    · intro hr
      rw [List.drop_one] at hr
      simp [aewnStep, h1, hm, hr]
    · intro e hr
      rw [List.drop_one] at hr
      simp [aewnStep, h1, hm, hr]

/-- Claim C2, witness: the step theorem applied to a word that is not a
candidate, which is left alone. -/
theorem c2_witness :
    aewnStep demoResolve ⟨"x".toList, [], none, []⟩ ("hi".toList) =
      ⟨"x".toList, [], none, []⟩ :=
  (c2_candidate_step demoResolve ⟨"x".toList, [], none, []⟩
    ("hi".toList)).1 (by decide)

/-- When every candidate word of a list misses in the resolver, folding the
word step over the list only records lookups: content, temp and the emoji
flag are all preserved. -/
theorem aewn_foldl_no_hit (resolve : List Char → Option (List Char))
    (l : List (List Char)) (st : AewnState)
    (h : ∀ w ∈ l, isCandidate w = true →
      resolve ((w.drop 1).dropLast) = none) :
    (l.foldl (aewnStep resolve) st).content = st.content ∧
    (l.foldl (aewnStep resolve) st).temp = st.temp ∧
    (l.foldl (aewnStep resolve) st).emoji = st.emoji := by
  induction l generalizing st with
  | nil => exact ⟨rfl, rfl, rfl⟩
  | cons w tl ih =>
    have htl : ∀ x ∈ tl, isCandidate x = true →
        resolve ((x.drop 1).dropLast) = none :=
      fun x hx => h x (List.mem_cons_of_mem _ hx)
    have hstep : (aewnStep resolve st w).content = st.content ∧
        (aewnStep resolve st w).temp = st.temp ∧
        (aewnStep resolve st w).emoji = st.emoji := by
      cases hc : isCandidate w with
      | false => simp [aewnStep, hc]
      | true =>
        cases hm : st.temp.contains w with
        | true =>
          have hm2 : w ∈ st.temp := by simpa using hm
          simp [aewnStep, hm2]
        | false =>
          have hm2 : w ∉ st.temp := by simpa using hm
          have hr := h w (List.mem_cons_self w tl) hc
          rw [List.drop_one] at hr
          simp [aewnStep, hc, hm2, hr]
    rw [List.foldl_cons]
    have hrec := ih (aewnStep resolve st w) htl
    exact ⟨hrec.1.trans hstep.1, hrec.2.1.trans hstep.2.1,
      hrec.2.2.trans hstep.2.2⟩

/-- Claim C3: when no candidate token of a message resolves, the rewrite
pass leaves the content unchanged and the emoji flag unset, and the relay
performs no transport step at all: no webhook is listed or created,
nothing is sent, and the original message is not deleted. -/
theorem c3_zero_hits_no_effects (resolve : List Char → Option (List Char))
    (content : List Char) (botId avatar : Nat) (env : TransportEnv)
    (h : ∀ w ∈ pySplit content, isCandidate w = true →
      resolve ((w.drop 1).dropLast) = none) :
    (animatedEmojis resolve content).content = content ∧
    (animatedEmojis resolve content).emoji = none ∧
    aewnEffects resolve content botId avatar env = [] := by
  have hf := aewn_foldl_no_hit resolve (pySplit content)
    ⟨content, [], none, []⟩ h
  have h2 : (animatedEmojis resolve content).emoji = none := hf.2.2
  have h1 : (animatedEmojis resolve content).content = content := hf.1
  refine ⟨h1, h2, ?_⟩
  simp [aewnEffects, h2]

/-- Claim C3, witness: a message whose only candidate token is absent from
the catalog is unchanged and causes no transport step. -/
theorem c3_witness :
    (animatedEmojis demoResolve (":nope: hi".toList)).content =
      ":nope: hi".toList ∧
    (animatedEmojis demoResolve (":nope: hi".toList)).emoji = none ∧
    aewnEffects demoResolve (":nope: hi".toList) 1 2
      ⟨some [], true, true, true⟩ = [] :=
  c3_zero_hits_no_effects demoResolve (":nope: hi".toList) 1 2
    ⟨some [], true, true, true⟩ (by decide)

/-- Claim C4, counterexample to the claim as stated: with an own webhook
present and a failing send, the relay ends with an escaping sendFailed
exception rather than a caught one (the source wraps no transport step in
try/except), and the delete step is not attempted. -/
theorem c4_caught_cex :
    relayTransport 1 0 ⟨some [⟨1⟩], true, false, true⟩ =
      ([RStep.listWebhooks, RStep.sendContent], some RErr.sendFailed) := by
  decide

/-- Claim C4 (amended): a transport failure is not caught inside the relay;
it aborts the relay at the failing step and escapes the handler. In
particular, whenever the send step fails, the delete step is never
attempted (so the original message stays), and an exception escapes. -/
theorem c4_send_failure_prevents_delete (botId avatar : Nat)
    (env : TransportEnv) (h : env.sendOk = false) :
    (relayTransport botId avatar env).1.contains RStep.deleteOriginal =
      false ∧
    (relayTransport botId avatar env).2.isSome = true := by
  rcases env with ⟨whr, cOk, sOk, dOk⟩
  simp only at h
  subst h
  cases whr with
  | none =>
    simp [relayTransport]
    decide
  | some whs =>
    cases hp : getProxy botId avatar whs with
    | reuse w =>
      simp [relayTransport, hp]
      decide
    | create n a =>
      cases cOk <;> simp [relayTransport, hp] <;> decide

/-- Claim C4, witness: the amended theorem applied to a concrete
environment in which the send fails. -/
theorem c4_witness :
    (relayTransport 1 0 ⟨some [⟨1⟩], true, false, true⟩).1.contains
      RStep.deleteOriginal = false ∧
    (relayTransport 1 0 ⟨some [⟨1⟩], true, false, true⟩).2.isSome = true :=
  c4_send_failure_prevents_delete 1 0 ⟨some [⟨1⟩], true, false, true⟩ rfl

/-- Claim C5: the webhook selection reuses the first listed webhook whose
owning identity is the bot itself when one exists, and otherwise creates a
webhook with the fixed name iCODE-BOT and the avatar of the author of the
triggering message. -/
theorem c5_proxy_reuse_or_create (botId avatar : Nat)
    (whs : List SrcWebhook) :
    ((∃ w ∈ whs, w.userId = botId) →
      ∃ w ∈ whs, w.userId = botId ∧
        getProxy botId avatar whs = ProxyResult.reuse w) ∧
    ((∀ w ∈ whs, w.userId ≠ botId) →
      getProxy botId avatar whs =
        ProxyResult.create ("iCODE-BOT".toList) avatar) := by
  constructor
  · rintro ⟨w, hw, hid⟩
    cases hfind : whs.find? (fun x => x.userId == botId) with
    | none =>
      exfalso
      have hn := List.find?_eq_none.mp hfind w hw
      simp [hid] at hn
    | some x =>
      refine ⟨x, List.mem_of_find?_eq_some hfind, ?_, ?_⟩
      · have hx := List.find?_some hfind
        simpa using hx
      · simp [getProxy, hfind]
  · intro h
    have hfind : whs.find? (fun x => x.userId == botId) = none := by
      apply List.find?_eq_none.mpr
      intro x hx
      simpa using h x hx
    simp [getProxy, hfind]

/-- Claim C5, witness: with no webhook listed, the relay creates the
iCODE-BOT webhook with the author avatar. -/
theorem c5_witness :
    getProxy 7 3 [] = ProxyResult.create ("iCODE-BOT".toList) 3 :=
  (c5_proxy_reuse_or_create 7 3 []).2 (by simp)

/-- Claim C6: arming the reminder timer first sets running to true, sleeps
for exactly the given delay, then sets running to false, and only then
emits the reminder; the running flag is true strictly between the start of
the timer and its fire, and false before and after. -/
theorem c6_timer_arm (delay : Nat) :
    (onBumpDone delay true).2 = none ∧
    runningAfter false ((onBumpDone delay true).1.take 0) = false ∧
    runningAfter false ((onBumpDone delay true).1.take 1) = true ∧
    runningAfter false ((onBumpDone delay true).1.take 2) = true ∧
    runningAfter false ((onBumpDone delay true).1.take 3) = false ∧
    runningAfter false (onBumpDone delay true).1 = false ∧
    sleepsOf (onBumpDone delay true).1 = [delay] ∧
    ((onBumpDone delay true).1)[1]? = some (SAct.sleepFor delay) ∧
    ((onBumpDone delay true).1)[2]? = some (SAct.setRunning false) ∧
    ((onBumpDone delay true).1)[3]? = some SAct.emitReminder := by
  refine ⟨rfl, rfl, rfl, rfl, rfl, rfl, rfl, rfl, rfl, rfl⟩

/-- Claim C7: on a confirmed Disboard bump webhook message, the handler
stores the current time and then dispatches a bump_done event armed for
the full period of 7200 seconds; the scheduler actions are the store write
followed by the arming, in that order, and a subsequent store read returns
the new timestamp. -/
theorem c7_trigger_confirmed (disboardId : Nat) (now : Int)
    (resolve : List Char → Option (List Char)) (store : BumpStore)
    (wid : Nat) (d : List Char) (rest : List (List Char))
    (content : List Char)
    (h : containsSub ("Bump done".toList) d = true) :
    getBumpTime (onMessage disboardId false false now resolve store
      ⟨some wid, disboardId, d :: rest, content⟩).store = some now ∧
    (onMessage disboardId false false now resolve store
      ⟨some wid, disboardId, d :: rest, content⟩).armed = some 7200 ∧
    (onMessage disboardId false false now resolve store
      ⟨some wid, disboardId, d :: rest, content⟩).acts =
      [SAct.storeWrite now, SAct.armTimer 7200] := by
  simp at h
  simp [onMessage, h, updateBumpTime, getBumpTime]

/-- Claim C7, witness: the theorem applied to a concrete Disboard bump
confirmation at time 1000. -/
theorem c7_witness :
    getBumpTime (onMessage 99 false false 1000 demoResolve ⟨none⟩
      ⟨some 1, 99, ["Bump done".toList], "x".toList⟩).store = some 1000 ∧
    (onMessage 99 false false 1000 demoResolve ⟨none⟩
      ⟨some 1, 99, ["Bump done".toList], "x".toList⟩).armed = some 7200 ∧
    (onMessage 99 false false 1000 demoResolve ⟨none⟩
      ⟨some 1, 99, ["Bump done".toList], "x".toList⟩).acts =
      [SAct.storeWrite 1000, SAct.armTimer 7200] :=
  c7_trigger_confirmed 99 1000 demoResolve ⟨none⟩ 1 ("Bump done".toList)
    [] ("x".toList) (by decide)

/-- Claim C8: the message hello :smile: world :smile: in which smile
resolves to R is rewritten to hello R world R, and the resolver is
consulted exactly once, on the single name smile. -/
theorem c8_double_token :
    (animatedEmojis demoResolve
      ("hello :smile: world :smile:".toList)).content =
      "hello R world R".toList ∧
    (animatedEmojis demoResolve
      ("hello :smile: world :smile:".toList)).lookups =
      ["smile".toList] := by
  decide

/-- Claim C9, counterexample to the claim as stated: when the reminder
emission fails after the timer fires, the exception escapes the handler
(nothing in on_bump_done catches it), rather than being caught and
logged there. -/
theorem c9_emit_failure_cex :
    (onBumpDone 5 false).2 = some () := by
  decide

/-- Claim C9 (amended): when the reminder emission fails after the timer
fires, the exception escapes the handler; the scheduler is nevertheless
idle again (running was set to false before the emission), and no
timer-arming action is performed by the failure. -/
theorem c9_emit_failure_idle (delay : Nat) :
    (onBumpDone delay false).2 = some () ∧
    runningAfter false (onBumpDone delay false).1 = false ∧
    armsOf (onBumpDone delay false).1 = [] := by
  refine ⟨rfl, rfl, rfl⟩

/-- Claim C10: a message carrying a webhook origin marker is never token
rewritten, never re-emitted and never deleted, whatever its author,
embeds, content, the maintenance flags, the store, or the transport
environment: the rewrite loop does not run, the content is unchanged, the
relay does not fire, and no transport step is performed. -/
theorem c10_webhook_never_relayed (disboardId : Nat)
    (maintenance isMaint : Bool) (now : Int)
    (resolve : List Char → Option (List Char)) (store : BumpStore)
    (wid aid : Nat) (embeds : List (List Char)) (content : List Char)
    (botId avatar : Nat) (env : TransportEnv) :
    (onMessage disboardId maintenance isMaint now resolve store
      ⟨some wid, aid, embeds, content⟩).aewnRan = false ∧
    (onMessage disboardId maintenance isMaint now resolve store
      ⟨some wid, aid, embeds, content⟩).newContent = content ∧
    (onMessage disboardId maintenance isMaint now resolve store
      ⟨some wid, aid, embeds, content⟩).fired = false ∧
    messageEffects (onMessage disboardId maintenance isMaint now resolve
      store ⟨some wid, aid, embeds, content⟩) botId avatar env = [] := by
  have key : (onMessage disboardId maintenance isMaint now resolve store
      ⟨some wid, aid, embeds, content⟩).aewnRan = false ∧
      (onMessage disboardId maintenance isMaint now resolve store
        ⟨some wid, aid, embeds, content⟩).newContent = content ∧
      (onMessage disboardId maintenance isMaint now resolve store
        ⟨some wid, aid, embeds, content⟩).fired = false := by
    unfold onMessage
    split
    · simp
    · by_cases hb : (aid == disboardId) = true
      · simp only [hb]
        cases embeds with
        | nil => simp
        | cons d rest =>
          split
          · split
            · simp
            · split <;> simp
          · simp
      · simp [hb]
  refine ⟨key.1, key.2.1, key.2.2, ?_⟩
  simp [messageEffects, key.2.2]

end Reflect
